import Mathlib

/-!
Shallow embedding of `murphy_event_scraper.py`: a one-shot scraper that
fetches a paginated event listing, extracts event records (title, link,
start time, location), normalizes the site's mislabeled UTC timestamps to
America/Chicago, and emits one calendar file per event.

Strings are modelled as Lean `String`/`List Char`; Python regex character
classes are modelled over their ASCII meaning; `dateutil.parser.parse` is
modelled on the ISO-8601 `YYYY-MM-DDTHH:MM:SS` shape the site emits;
`pytz.timezone("America/Chicago").localize` (default `is_dst=False`) is
modelled by the post-2007 US daylight-saving rule.
-/

namespace Murphy

/-! ### Character classes (ASCII meaning of the Python regex classes) -/

/-- Python regex `\w` over ASCII: alphanumeric or underscore. -/
def isWordChar (c : Char) : Bool := c.isAlphanum || c = '_'

/-- Python regex `\s` / `str.strip()` whitespace. -/
def isSpaceChar (c : Char) : Bool := c.isWhitespace

/-- A character kept by `re.sub(r'[^\w\s-]', '', ...)`. -/
def isKeptChar (c : Char) : Bool := isWordChar c || isSpaceChar c || c = '-'

/-- A character of the class `[-\s]` collapsed by `re.sub(r'[-\s]+', '-', ...)`. -/
def isDashOrSpace (c : Char) : Bool := isSpaceChar c || c = '-'

/-! ### Filename sanitization (`generate_ics_file`) -/

/-- Python `re.sub(r'[^\w\s-]', '', s)`: drop every character outside `[\w\s-]`. -/
def stripInvalid (s : List Char) : List Char := s.filter isKeptChar

/-- Python `str.strip()`: remove leading and trailing whitespace. -/
def pyStrip (s : List Char) : List Char :=
  ((s.dropWhile isSpaceChar).reverse.dropWhile isSpaceChar).reverse

/-- Python `str.strip()` on `String`. -/
def pyStripStr (s : String) : String := String.mk (pyStrip s.data)

/-- Python `re.sub(r'[-\s]+', '-', s)`: replace each maximal run of hyphens and
whitespace by a single hyphen.  The flag records whether we are inside a run
whose replacement hyphen has already been emitted. -/
def collapseAux : Bool → List Char → List Char
  | _, [] => []
  | inRun, c :: rest =>
    if isDashOrSpace c then
      if inRun then collapseAux true rest
      else '-' :: collapseAux true rest
    else c :: collapseAux false rest

def collapseRuns (s : List Char) : List Char := collapseAux false s

/-- The `filename_base` of `generate_ics_file`:
`re.sub(r'[-\s]+', '-', re.sub(r'[^\w\s-]', '', title).strip())`. -/
def filenameBase (title : String) : List Char :=
  collapseRuns (pyStrip (stripInvalid title.data))

/-- The filename: `filename_base` truncated to 50 characters, then the `.ics` extension. -/
def icsFilename (title : String) : String :=
  String.mk ((filenameBase title).take 50 ++ (".ics").data)

/-! ### Naive date-times and the permissive parser (`dateutil.parser.parse`,
restricted to the `YYYY-MM-DDTHH:MM:SS` shape the site serializes) -/

structure NaiveDateTime where
  year : Nat
  month : Nat
  day : Nat
  hour : Nat
  minute : Nat
  second : Nat
deriving DecidableEq, Repr

def isLeapYear (y : Nat) : Bool :=
  (y % 4 = 0 && !(y % 100 = 0)) || y % 400 = 0

def daysInMonth (y m : Nat) : Nat :=
  if m = 2 then (if isLeapYear y then 29 else 28)
  else if m = 4 || m = 6 || m = 9 || m = 11 then 30
  else 31

def digitVal (c : Char) : Nat := c.toNat - 48

def twoDigits (a b : Char) : Nat := 10 * digitVal a + digitVal b

def fourDigits (a b c d : Char) : Nat :=
  1000 * digitVal a + 100 * digitVal b + 10 * digitVal c + digitVal d

/-- Parse `YYYY-MM-DDTHH:MM:SS` into a validated naive date-time; any other
shape or out-of-range field fails (the caller treats failure as a
`ValueError` of `dateutil.parser.parse`). -/
def parseISO (s : List Char) : Option NaiveDateTime :=
  match s with
  | [y1, y2, y3, y4, q1, m1, m2, q2, d1, d2, qT, h1, h2, qa, n1, n2, qb, s1, s2] =>
    if q1 = '-' && q2 = '-' && qT = 'T' && qa = ':' && qb = ':'
        && y1.isDigit && y2.isDigit && y3.isDigit && y4.isDigit
        && m1.isDigit && m2.isDigit && d1.isDigit && d2.isDigit
        && h1.isDigit && h2.isDigit && n1.isDigit && n2.isDigit
        && s1.isDigit && s2.isDigit then
      let y := fourDigits y1 y2 y3 y4
      let mo := twoDigits m1 m2
      let d := twoDigits d1 d2
      let h := twoDigits h1 h2
      let mi := twoDigits n1 n2
      let se := twoDigits s1 s2
      if 1 ≤ mo && mo ≤ 12 && 1 ≤ d && d ≤ daysInMonth y mo
          && h ≤ 23 && mi ≤ 59 && se ≤ 59 then
        some ⟨y, mo, d, h, mi, se⟩
      else none
    else none
  | _ => none

/-! ### America/Chicago localization (`pytz`, default `is_dst=False`) -/

/-- Day of week, 0 = Sunday, by Sakamoto's method (valid for Gregorian dates). -/
def sakamotoOffset (m : Nat) : Nat :=
  match m with
  | 1 => 0 | 2 => 3 | 3 => 2 | 4 => 5 | 5 => 0 | 6 => 3
  | 7 => 5 | 8 => 1 | 9 => 4 | 10 => 6 | 11 => 2 | _ => 4

def dayOfWeek (y m d : Nat) : Nat :=
  let y := if m < 3 then y - 1 else y
  (y + y / 4 - y / 100 + y / 400 + sakamotoOffset m + d) % 7

def firstSundayOfMonth (y m : Nat) : Nat :=
  1 + (7 - dayOfWeek y m 1) % 7

def secondSundayOfMarch (y : Nat) : Nat := firstSundayOfMonth y 3 + 7

def firstSundayOfNovember (y : Nat) : Nat := firstSundayOfMonth y 11

/-- Lexicographic key on (month, day, hour, minute, second). -/
def timeKey (dt : NaiveDateTime) : Nat :=
  (((dt.month * 100 + dt.day) * 100 + dt.hour) * 100 + dt.minute) * 100 + dt.second

/-- Whether `pytz`'s `localize` (default `is_dst=False`) labels this wall-clock
time as daylight time in America/Chicago: from the second Sunday of March at
03:00 (the first wall time that exists in CDT; `is_dst=False` resolves the
nonexistent 02:00–02:59 gap to CST) up to, excluding, the first Sunday of
November at 01:00 (`is_dst=False` resolves the ambiguous 01:00–01:59 hour to
CST). -/
def inChicagoDST (dt : NaiveDateTime) : Bool :=
  let dstStart := (((3 * 100 + secondSundayOfMarch dt.year) * 100 + 3) * 100) * 100
  let dstEnd := (((11 * 100 + firstSundayOfNovember dt.year) * 100 + 1) * 100) * 100
  dstStart ≤ timeKey dt && timeKey dt < dstEnd

/-- UTC offset in hours attached by `central_tz.localize`: CDT = −5, CST = −6. -/
def chicagoOffsetHours (dt : NaiveDateTime) : Int :=
  if inChicagoDST dt then -5 else -6

/-- A timezone-aware date-time: the wall-clock fields plus the resolved
UTC offset. -/
structure AwareDateTime where
  naive : NaiveDateTime
  offsetHours : Int
deriving DecidableEq, Repr

/-- Models `central_tz.localize(parsed_naive_datetime)`: keep the wall-clock fields
and attach the date-dependent Chicago offset. -/
def chicagoLocalize (dt : NaiveDateTime) : AwareDateTime :=
  ⟨dt, chicagoOffsetHours dt⟩

/-! ### Datetime normalization (`scrape_page`, lines 109–114) -/

/-- Python `datetime_str.rstrip('Zz')`: remove every trailing `'Z'` or `'z'`. -/
def rstripZ (s : List Char) : List Char :=
  (s.reverse.dropWhile (fun c => c = 'Z' || c = 'z')).reverse

/-- The normalizer: strip trailing UTC markers, parse the rest as a naive
date-time, localize to America/Chicago.  `none` models the caught
`ValueError`/`TypeError`. -/
def normalize (s : String) : Option AwareDateTime :=
  (parseISO (rstripZ s.data)).map chicagoLocalize

/-! ### The HTML structure `scrape_page` consumes

Each `div.views-field-title` event container is modelled by the pieces the
parser looks at: the first `<a>` (with its `href` attribute, its optional
nested `span.font-bold`, and its full text), the first `<time>` tag's
`datetime` attribute, and the first `span.location`'s text.  An absent
element or attribute is `none`. -/

/-- The result of `item.find('a')`. -/
structure AnchorElem where
  /-- the `href` attribute; `link_element.get('href', '')` defaults to `""`. -/
  hrefAttr : Option String
  /-- text of `link_element.find('span', class_='font-bold')`, if found. -/
  titleSpan : Option String
  /-- The full text `link_element.text`. -/
  text : String
deriving DecidableEq, Repr

/-- One `div.views-field-title` event container. -/
structure Container where
  anchor : Option AnchorElem
  /-- the `datetime` attribute of `item.find('time')`, when the tag is
  present and has the attribute. -/
  timeDatetime : Option String
  /-- text of `item.find('span', class_='location')`, if found. -/
  locationSpan : Option String
deriving DecidableEq, Repr

/-- The event dictionary appended to `events_on_page`
(keys `title`, `link`, `datetime`, `location`; the spec calls the
`datetime` value `start_time`). -/
structure EventRecord where
  title : String
  link : String
  start_time : AwareDateTime
  location : String
deriving DecidableEq, Repr

/-- Python `str.startswith(pre)`. -/
def pyStartsWith (s pre : String) : Bool := List.isPrefixOf pre.data s.data

/-- Lines 77–82: prepend the site origin when the href begins with `'/'`,
else pass it through. -/
def resolveHref (href : String) : String :=
  if pyStartsWith href "/" then "https://murphy.tulane.edu" ++ href else href

/-- The `link` extraction: the empty string when there is no anchor, else the resolved
`href` (defaulted to `""`). -/
def extractLink (c : Container) : String :=
  match c.anchor with
  | none => ""
  | some a => resolveHref (a.hrefAttr.getD "")

/-- The `title` extraction: the `font-bold` span's text stripped, else the
anchor's full text stripped, else the placeholder. -/
def extractTitle (c : Container) : String :=
  match c.anchor with
  | none => "No Title Found"
  | some a =>
    match a.titleSpan with
    | some t => pyStripStr t
    | none => pyStripStr a.text

/-- The `location` extraction: the `span.location` text stripped, else the
placeholder. -/
def extractLocation (c : Container) : String :=
  match c.locationSpan with
  | none => "No Location Found"
  | some l => pyStripStr l

/-- The per-container body of the loop in `scrape_page`: an event record is
appended only when a nonempty `datetime` string is present and normalizes;
a missing or unparseable timestamp produces nothing (the warning branches). -/
def parseContainer (c : Container) : Option EventRecord :=
  let datetime_str := (c.timeDatetime).getD ""
  if datetime_str = "" then none
  else
    match normalize datetime_str with
    | some adt =>
      some { title := extractTitle c, link := extractLink c,
             start_time := adt, location := extractLocation c }
    | none => none

/-- The whole container loop: records of the containers that yield one, in
page order. -/
def parsePage (cs : List Container) : List EventRecord :=
  cs.filterMap parseContainer

/-! ### Fetching and the orchestrator (`main`) -/

/-- The `base_url` constant of `main`. -/
def base_url : String := "https://murphy.tulane.edu/events/upcoming-events"

/-- What parsing a fetched page's HTML can see: its event containers and the
`href` attributes of the anchors matched by `li.pager__item a`. -/
structure Page where
  containers : List Container
  pagerHrefs : List (Option String)
deriving DecidableEq, Repr

/-- Models `scrape_page(url)` given the fetch outcome for `url`: a failed request
returns `[]` (the `except` branch), zero containers return `[]` (the
structural-drift branch), else the container loop runs. -/
def scrape_page (resp : Option Page) : List EventRecord :=
  match resp with
  | none => []
  | some p => if p.containers.isEmpty then [] else parsePage p.containers

/-- Pagination discovery (lines 155–161): the set of `base_url + href` for
each pager anchor whose `href` attribute is present and starts with
`?page=`. -/
def pageLinks (hrefs : List (Option String)) : Finset String :=
  (hrefs.filterMap (fun oh =>
    oh.bind (fun h =>
      if pyStartsWith h "?page=" then some (base_url ++ h) else none))).toFinset

/-- Python `sorted(list(page_links))`. -/
def sortedPageLinks (p : Page) : List String :=
  (pageLinks p.pagerHrefs).sort (fun a b => a ≤ b)

/-- Models `main` over a fetch oracle indexed by request order (request 0: the
base page for pagination discovery; request 1: the base page again inside
`scrape_page`; request `2 + i`: the `i`-th sorted pagination URL).  `none`
models the early `return` after a base-page fetch failure — no calendar
file is written; `some l` models the run reaching emission with aggregated
event list `l`. -/
def run (fetch : Nat → String → Option Page) : Option (List EventRecord) :=
  match fetch 0 base_url with
  | none => none
  | some basePage =>
    let baseEvents := scrape_page (fetch 1 base_url)
    let links := sortedPageLinks basePage
    some (baseEvents ++
      links.enum.flatMap (fun iu => scrape_page (fetch (2 + iu.1) iu.2)))

/-! ### Fixtures used by concrete witnesses -/

/-- A container with no anchor and no location but a valid timestamp. -/
def witContainer : Container := ⟨none, some "2025-03-10T14:30:00Z", none⟩

/-- The record `witContainer` parses to. -/
def witRecord : EventRecord :=
  ⟨"No Title Found", "", ⟨⟨2025, 3, 10, 14, 30, 0⟩, -5⟩, "No Location Found"⟩

/-- A base page with one valid event container and no pager links. -/
def witBasePage : Page := ⟨[witContainer], []⟩

/-- A fetch oracle whose first request (the base page) succeeds with
`witBasePage` and every later request fails. -/
def witFetch : Nat → String → Option Page :=
  fun n _ => if n = 0 then some witBasePage else none

end Murphy

namespace Murphy

/-! ### Helper lemmas -/

theorem mem_collapseAux (l : List Char) : ∀ (b : Bool) (c : Char),
    c ∈ collapseAux b l → c = '-' ∨ (c ∈ l ∧ isDashOrSpace c = false) := by
  induction l with
  | nil => intro b c h; cases h
  | cons a rest ih =>
    intro b c h
    simp only [collapseAux] at h
    by_cases hds : isDashOrSpace a = true
    · rw [if_pos hds] at h
      cases b with
      | true =>
        rw [if_pos rfl] at h
        rcases ih true c h with h1 | ⟨h2, h3⟩
        · exact Or.inl h1
        · exact Or.inr ⟨List.mem_cons_of_mem _ h2, h3⟩
      | false =>
        rw [if_neg Bool.false_ne_true] at h
        rcases List.mem_cons.mp h with h0 | h0
        · exact Or.inl h0
        · rcases ih true c h0 with h1 | ⟨h2, h3⟩
          · exact Or.inl h1
          · exact Or.inr ⟨List.mem_cons_of_mem _ h2, h3⟩
    · rw [if_neg hds] at h
      have hds' : isDashOrSpace a = false := by
        cases hx : isDashOrSpace a
        · rfl
        · exact absurd hx hds
      rcases List.mem_cons.mp h with h0 | h0
      · subst h0; exact Or.inr ⟨List.mem_cons_self _ _, hds'⟩
      · rcases ih false c h0 with h1 | ⟨h2, h3⟩
        · exact Or.inl h1
        · exact Or.inr ⟨List.mem_cons_of_mem _ h2, h3⟩

theorem mem_pyStrip {c : Char} {l : List Char} (h : c ∈ pyStrip l) : c ∈ l := by
  unfold pyStrip at h
  rw [List.mem_reverse] at h
  have h1 := (List.dropWhile_sublist _).subset h
  rw [List.mem_reverse] at h1
  exact (List.dropWhile_sublist _).subset h1

theorem rstripZ_append_marker (t : List Char) (c : Char) (h : c = 'Z' ∨ c = 'z') :
    rstripZ (t ++ [c]) = rstripZ t := by
  unfold rstripZ
  rw [List.reverse_append]
  have hc : (c = 'Z' || c = 'z') = true := by
    rcases h with h | h <;> simp [h]
  simp [List.dropWhile_cons, hc]

theorem normalize_offset (s : String) (adt : AwareDateTime)
    (h : normalize s = some adt) :
    adt.offsetHours = chicagoOffsetHours adt.naive := by
  unfold normalize at h
  rcases Option.map_eq_some'.mp h with ⟨n, _, hcl⟩
  rw [← hcl]
  rfl

/-! ### Claim theorems -/

/-- C1, counterexample to the claim as stated: for the title `"a_b"` the
computed filename base is `"a_b"` — Python's `\w` keeps underscores, so the
part before the extension is not made of alphanumerics and hyphens only. -/
theorem c1_counterexample :
    ¬ (∀ c ∈ (filenameBase "a_b").take 50, c.isAlphanum = true ∨ c = '-') := by
  decide

/-- C1 (amended): for every title `t`, the filename computed by
`generate_ics_file` is the sanitized base truncated to 50 characters plus
the fixed `.ics` extension; every character of the truncated base is a word
character (alphanumeric or underscore) or a hyphen; the total length is at
most 50 plus the extension length; and the computation is deterministic. -/
theorem c1_filename_sanitization (t : String) :
    (∀ c ∈ (filenameBase t).take 50, isWordChar c = true ∨ c = '-') ∧
    (icsFilename t).length ≤ 50 + ".ics".length ∧
    icsFilename t = String.mk ((filenameBase t).take 50 ++ (".ics").data) ∧
    (∀ t', t = t' → icsFilename t = icsFilename t') := by
  refine ⟨?_, ?_, rfl, fun t' ht => by rw [ht]⟩
  · intro c hc
    have hc' : c ∈ filenameBase t := List.take_subset 50 _ hc
    rcases mem_collapseAux _ false c hc' with h | ⟨h1, h2⟩
    · exact Or.inr h
    · have h3 : c ∈ stripInvalid t.data := mem_pyStrip h1
      have h4 : isKeptChar c = true := (List.mem_filter.mp h3).2
      left
      simp only [isKeptChar, Bool.or_eq_true] at h4
      rw [isDashOrSpace, Bool.or_eq_false_iff] at h2
      rcases h4 with (hw | hs) | hd
      · exact hw
      · exact absurd hs (by rw [h2.1]; exact Bool.false_ne_true)
      · exact absurd hd (by rw [h2.2]; exact Bool.false_ne_true)
  · show ((filenameBase t).take 50 ++ (".ics").data).length ≤ 50 + ".ics".length
    rw [List.length_append, List.length_take]
    exact Nat.add_le_add_right (min_le_left _ _) _

/-- C1 witness: the amended theorem applied at the concrete title
`"a b!"`. -/
theorem c1_filename_sanitization_witness :
    (isWordChar 'a' = true ∨ 'a' = '-') ∧
    (icsFilename "a b!").length ≤ 50 + ".ics".length ∧
    icsFilename "a b!" = icsFilename "a b!" :=
  ⟨(c1_filename_sanitization "a b!").1 'a' (by decide),
   (c1_filename_sanitization "a b!").2.1,
   (c1_filename_sanitization "a b!").2.2.2 "a b!" rfl⟩

/-- C2: a trailing UTC marker (`'Z'` or `'z'`) is ignored — normalizing a
raw timestamp with the marker equals normalizing it without; the concrete
string `"2025-03-10T14:30:00Z"` normalizes to wall time 2025-03-10 14:30:00
with the America/Chicago daylight offset −5 (that date is inside DST), not
to 14:30 UTC; and `"2025-01-15T10:00:00Z"` gets the standard offset −6,
showing date-dependent standard/daylight resolution. -/
theorem c2_utc_marker_ignored (t : List Char) (c : Char)
    (h : c = 'Z' ∨ c = 'z') :
    normalize (String.mk (t ++ [c])) = normalize (String.mk t) ∧
    normalize "2025-03-10T14:30:00Z" =
      some ⟨⟨2025, 3, 10, 14, 30, 0⟩, -5⟩ ∧
    normalize "2025-01-15T10:00:00Z" =
      some ⟨⟨2025, 1, 15, 10, 0, 0⟩, -6⟩ := by
  refine ⟨?_, by decide, by decide⟩
  unfold normalize
  rw [show (String.mk (t ++ [c])).data = t ++ [c] from rfl,
    show (String.mk t).data = t from rfl, rstripZ_append_marker t c h]

/-- C2 witness: the theorem applied to the concrete raw timestamp
`"2025-03-10T14:30:00"` with the marker `'Z'` appended. -/
theorem c2_utc_marker_ignored_witness :
    normalize (String.mk ("2025-03-10T14:30:00".data ++ ['Z'])) =
      normalize (String.mk "2025-03-10T14:30:00".data) :=
  (c2_utc_marker_ignored "2025-03-10T14:30:00".data 'Z' (Or.inl rfl)).1

/-- C3: a container whose `datetime` string is missing (defaulted to the
empty string) or does not parse yields no event record, and the rest of the
container list is processed unchanged. -/
theorem c3_missing_timestamp_drops_event (c : Container)
    (rest : List Container)
    (h : (c.timeDatetime).getD "" = "" ∨
      normalize ((c.timeDatetime).getD "") = none) :
    parseContainer c = none ∧ parsePage (c :: rest) = parsePage rest := by
  have hc : parseContainer c = none := by
    unfold parseContainer
    rcases h with h | h
    · rw [if_pos h]
    · by_cases he : (c.timeDatetime).getD "" = ""
      · rw [if_pos he]
      · rw [if_neg he, h]
  exact ⟨hc, by simp [parsePage, List.filterMap_cons, hc]⟩

/-- C3 witness: the theorem applied to a concrete container with no `time`
tag, in front of a one-container rest list. -/
theorem c3_missing_timestamp_drops_event_witness :
    parseContainer ⟨none, none, none⟩ = none ∧
    parsePage [⟨none, none, none⟩, witContainer] = parsePage [witContainer] :=
  c3_missing_timestamp_drops_event ⟨none, none, none⟩ [witContainer]
    (Or.inl rfl)

theorem parseContainer_some_elim {c : Container} {r : EventRecord}
    (heq : parseContainer c = some r) :
    normalize ((c.timeDatetime).getD "") = some r.start_time ∧
    r.title = extractTitle c ∧ r.link = extractLink c ∧
    r.location = extractLocation c := by
  unfold parseContainer at heq
  by_cases he : (c.timeDatetime).getD "" = ""
  · rw [if_pos he] at heq; simp at heq
  · rw [if_neg he] at heq
    cases hn : normalize ((c.timeDatetime).getD "") with
    | none => rw [hn] at heq; simp at heq
    | some adt =>
      rw [hn] at heq
      injection heq with h2
      subst h2
      exact ⟨rfl, rfl, rfl, rfl⟩

/-- C4: every record produced by the container loop comes from one of the
containers, its title and location are exactly the (total, string-valued)
extraction results — the placeholder sentinels when the anchor or location
span is absent — and its start time carries the America/Chicago offset
resolved for its own calendar date. -/
theorem c4_record_invariant (cs : List Container) (r : EventRecord)
    (h : r ∈ parsePage cs) :
    ∃ c ∈ cs, parseContainer c = some r ∧
      r.title = extractTitle c ∧ r.location = extractLocation c ∧
      (c.anchor = none → r.title = "No Title Found") ∧
      (c.locationSpan = none → r.location = "No Location Found") ∧
      r.start_time.offsetHours = chicagoOffsetHours r.start_time.naive := by
  rcases List.mem_filterMap.mp h with ⟨c, hc, heq⟩
  rcases parseContainer_some_elim heq with ⟨hn, ht, _, hl⟩
  refine ⟨c, hc, heq, ht, hl, ?_, ?_, normalize_offset _ _ hn⟩
  · intro ha; rw [ht]; unfold extractTitle; rw [ha]
  · intro ha; rw [hl]; unfold extractLocation; rw [ha]

/-- C4 witness: the invariant instantiated on a concrete one-container page
whose container has no anchor and no location span. -/
theorem c4_record_invariant_witness :
    parseContainer witContainer = some witRecord ∧
    witRecord.title = extractTitle witContainer ∧
    witRecord.location = extractLocation witContainer ∧
    (witContainer.anchor = none → witRecord.title = "No Title Found") ∧
    (witContainer.locationSpan = none →
      witRecord.location = "No Location Found") ∧
    witRecord.start_time.offsetHours =
      chicagoOffsetHours witRecord.start_time.naive := by
  have h := c4_record_invariant [witContainer] witRecord (by decide)
  rcases h with ⟨c, hc, hrest⟩
  rw [List.mem_singleton] at hc
  subst hc
  exact hrest

/-- C5: a base-page fetch failure aborts the run with no output at all,
while after a successful base-page fetch the run always reaches emission:
the emitted list contains every event scraped from the base page and every
event scraped from each pagination URL, regardless of other pages'
failures (a failed page contributes `scrape_page none = []` and nothing
else is lost). -/
theorem c5_fetch_failure_policy (fetch : Nat → String → Option Page)
    (bp : Page) :
    (fetch 0 base_url = none → run fetch = none) ∧
    (fetch 0 base_url = some bp →
      ∃ l, run fetch = some l ∧
        (∀ r ∈ scrape_page (fetch 1 base_url), r ∈ l) ∧
        (∀ iu ∈ (sortedPageLinks bp).enum,
          ∀ r ∈ scrape_page (fetch (2 + iu.1) iu.2), r ∈ l)) := by
  constructor
  · intro h
    unfold run
    rw [h]
  · intro h
    have hrun : run fetch = some (scrape_page (fetch 1 base_url) ++
        (sortedPageLinks bp).enum.flatMap
          (fun iu => scrape_page (fetch (2 + iu.1) iu.2))) := by
      unfold run
      rw [h]
    refine ⟨_, hrun, fun r hr => List.mem_append_left _ hr, ?_⟩
    intro iu hiu r hr
    exact List.mem_append_right _ (List.mem_flatMap.mpr ⟨iu, hiu, hr⟩)

/-- C5 witness: with an always-failing fetch the run aborts with no output;
with a fetch that succeeds only on the base request, the run still reaches
emission. -/
theorem c5_fetch_failure_policy_witness :
    run (fun _ _ => none) = none ∧
    ∃ l, run witFetch = some l :=
  ⟨(c5_fetch_failure_policy (fun _ _ => none) witBasePage).1 rfl,
   match (c5_fetch_failure_policy witFetch witBasePage).2 rfl with
   | ⟨l, hl, _, _⟩ => ⟨l, hl⟩⟩

/-- C6: when the structural selector matches zero containers, `scrape_page`
takes the structural-drift branch and returns the empty event list (as a
total Lean function it cannot raise). -/
theorem c6_zero_containers_empty (p : Page) (h : p.containers = []) :
    scrape_page (some p) = [] := by
  simp [scrape_page, h]

/-- C6 witness: the theorem applied to a concrete container-free page. -/
theorem c6_zero_containers_empty_witness :
    scrape_page (some ⟨[], [some "?page=1"]⟩) = [] :=
  c6_zero_containers_empty ⟨[], [some "?page=1"]⟩ rfl

/-- C7: an href beginning with `'/'` resolves to the site origin plus the
href; any other href is passed through unchanged. -/
theorem c7_href_resolution (href : String) :
    (pyStartsWith href "/" = true →
      resolveHref href = "https://murphy.tulane.edu" ++ href) ∧
    (pyStartsWith href "/" = false → resolveHref href = href) := by
  unfold resolveHref
  constructor <;> intro h <;> simp [h]

/-- C7 witness: `"/events/foo"` resolves to the absolute site URL and an
already absolute href passes through unchanged. -/
theorem c7_href_resolution_witness :
    resolveHref "/events/foo" = "https://murphy.tulane.edu" ++ "/events/foo" ∧
    resolveHref "https://example.org/x" = "https://example.org/x" :=
  ⟨(c7_href_resolution "/events/foo").1 (by decide),
   (c7_href_resolution "https://example.org/x").2 (by decide)⟩

/-- C8: with an anchor and the `font-bold` span, the title is the span's
text stripped; with an anchor but no span, it is the anchor's full text
stripped; with no anchor, it is the placeholder sentinel. -/
theorem c8_title_extraction (c : Container) (a : AnchorElem) :
    (c.anchor = some a →
      (∀ t, a.titleSpan = some t → extractTitle c = pyStripStr t) ∧
      (a.titleSpan = none → extractTitle c = pyStripStr a.text)) ∧
    (c.anchor = none → extractTitle c = "No Title Found") := by
  refine ⟨fun h => ⟨fun t ht => ?_, fun ht => ?_⟩, fun h => ?_⟩
  · simp only [extractTitle, h, ht]
  · simp only [extractTitle, h, ht]
  · simp only [extractTitle, h]

/-- C8 witness: the three branches exercised on concrete containers. -/
theorem c8_title_extraction_witness :
    extractTitle ⟨some ⟨none, some " T ", "x"⟩, none, none⟩ = pyStripStr " T " ∧
    extractTitle ⟨some ⟨none, none, " full "⟩, none, none⟩ =
      pyStripStr " full " ∧
    extractTitle ⟨none, none, none⟩ = "No Title Found" :=
  ⟨((c8_title_extraction ⟨some ⟨none, some " T ", "x"⟩, none, none⟩
      ⟨none, some " T ", "x"⟩).1 rfl).1 " T " rfl,
   ((c8_title_extraction ⟨some ⟨none, none, " full "⟩, none, none⟩
      ⟨none, none, " full "⟩).1 rfl).2 rfl,
   (c8_title_extraction ⟨none, none, none⟩ ⟨none, none, ""⟩).2 rfl⟩

/-- C9: pagination discovery collects exactly the present pager hrefs that
start with `?page=`, each mapped to `base_url ++ href`; the collection is a
set — invariant under permutation of the anchor list and under exact-string
duplication. -/
theorem c9_pagination_dedup (u : String) (hs : List (Option String)) :
    (u ∈ pageLinks hs ↔
      ∃ h, (some h) ∈ hs ∧ pyStartsWith h "?page=" = true ∧
        u = base_url ++ h) ∧
    (∀ hs', hs.Perm hs' → pageLinks hs = pageLinks hs') ∧
    pageLinks (hs ++ hs) = pageLinks hs := by
  refine ⟨?_, ?_, ?_⟩
  · unfold pageLinks
    rw [List.mem_toFinset, List.mem_filterMap]
    constructor
    · rintro ⟨oh, hoh, heq⟩
      rcases oh with _ | h
      · simp at heq
      · by_cases hp : pyStartsWith h "?page=" = true
        · refine ⟨h, hoh, hp, ?_⟩
          rw [show (some h).bind (fun h =>
              if pyStartsWith h "?page=" then some (base_url ++ h)
              else none) = if pyStartsWith h "?page=" then
                some (base_url ++ h) else none from rfl, if_pos hp] at heq
          exact (Option.some.inj heq).symm
        · rw [show (some h).bind (fun h =>
              if pyStartsWith h "?page=" then some (base_url ++ h)
              else none) = if pyStartsWith h "?page=" then
                some (base_url ++ h) else none from rfl, if_neg hp] at heq
          cases heq
    · rintro ⟨h, hh, hp, rfl⟩
      exact ⟨some h, hh, by simp [Option.bind, hp]⟩
  · intro hs' hperm
    unfold pageLinks
    exact List.toFinset_eq_of_perm _ _ (hperm.filterMap _)
  · unfold pageLinks
    rw [List.filterMap_append, List.toFinset_append, Finset.union_self]

/-- C9 witness: a matching href among duds is collected; reordering and
duplicating the anchor list leave the set unchanged. -/
theorem c9_pagination_dedup_witness :
    (base_url ++ "?page=3") ∈ pageLinks [none, some "?page=3", some "/y"] ∧
    pageLinks [none, some "?page=3", some "/y"] =
      pageLinks [some "?page=3", some "/y", none] ∧
    pageLinks ([some "?page=3"] ++ [some "?page=3"]) =
      pageLinks [some "?page=3"] :=
  ⟨(c9_pagination_dedup (base_url ++ "?page=3")
      [none, some "?page=3", some "/y"]).1.mpr
      ⟨"?page=3", by decide, by decide, rfl⟩,
   (c9_pagination_dedup (base_url ++ "?page=3")
      [none, some "?page=3", some "/y"]).2.1
      [some "?page=3", some "/y", none] (by decide),
   (c9_pagination_dedup (base_url ++ "?page=3") [some "?page=3"]).2.2⟩

/-- C10: the orchestrator issues two requests for the base URL (request 0
for pagination discovery, request 1 inside `scrape_page`); when request 0
succeeds and request 1 fails, the run does not abort: it emits exactly the
sub-page events, with the base page's own events silently absent. -/
theorem c10_base_refetch_failure (fetch : Nat → String → Option Page)
    (bp : Page) (h0 : fetch 0 base_url = some bp)
    (h1 : fetch 1 base_url = none) :
    run fetch = some ((sortedPageLinks bp).enum.flatMap
      (fun iu => scrape_page (fetch (2 + iu.1) iu.2))) := by
  unfold run
  rw [h0, h1]
  rfl

/-- C10 witness: a fetch oracle whose base page holds one valid event
container but whose second request fails yields a run that completes with
no events — the base page's event is silently missing. -/
theorem c10_base_refetch_failure_witness :
    run witFetch = some [] := by
  have h := c10_base_refetch_failure witFetch witBasePage rfl rfl
  simpa [sortedPageLinks, pageLinks, witBasePage, Finset.sort_empty] using h

example : icsFilename "Hello,  World! -- Opening" = "Hello-World-Opening.ics" := by decide

example : icsFilename "a_b" = "a_b.ics" := by decide

example : normalize "2025-03-10T14:30:00Z" =
    some ⟨⟨2025, 3, 10, 14, 30, 0⟩, -5⟩ := by decide

example : normalize "2025-01-15T10:00:00Z" =
    some ⟨⟨2025, 1, 15, 10, 0, 0⟩, -6⟩ := by decide

example : normalize "garbage" = none := by decide

example : parseContainer ⟨some ⟨some "/events/foo", some " Talk ", "x"⟩,
    some "2025-03-10T14:30:00Z", some " Hall "⟩ =
    some ⟨"Talk", "https://murphy.tulane.edu/events/foo",
          ⟨⟨2025, 3, 10, 14, 30, 0⟩, -5⟩, "Hall"⟩ := by decide

example : parseContainer ⟨some ⟨some "/e", none, "t"⟩, none, none⟩ = none := by decide

example : (base_url ++ "?page=1") ∈
    pageLinks [some "?page=2", none, some "?page=1", some "?page=2", some "/x"] := by
  decide

example : sortedPageLinks ⟨[], [some "/x", none]⟩ = [] := by
  simp [sortedPageLinks, pageLinks, pyStartsWith, Finset.sort_empty]

example : run (fun _ _ => none) = none := rfl

end Murphy
